import Mathlib

/-!
Shallow embedding of the certificate service core of the lemur repository
(src/lemur/certificates/service.py and src/lemur/exceptions.py), together with
theorems settling the specification claims about it.

Python dictionaries with a fixed key set are embedded as structures with
`Option` fields (a `none` field is a missing key, whose access raises KeyError);
fallible code returns `Except`; the SQLAlchemy query pipeline of `render` is
embedded as the ordered list of filters applied before `sort_and_page`;
database collaborators (a keyed store, `update_list` set reconciliation) are
explicit state passing.
-/

set_option autoImplicit false

namespace Lemur

/-! ### CSR builder (service.create_csr) -/

/-- An RSA private key as produced by `rsa.generate_private_key`. -/
structure PrivateKey where
  publicExponent : Nat
  keySize : Nat
  deriving DecidableEq

/-- `x509.NameAttribute(oid, value)`. -/
structure NameAttribute where
  oid : String
  value : String
  deriving DecidableEq

/-- One entry of `csr_config['extensions']['subAltNames']['names']`. -/
structure SubAltName where
  nameType : String
  value : String
  deriving DecidableEq

/-- An x509 extension added to the CSR builder. -/
inductive Extension where
  | basicConstraints (ca : Bool) (critical : Bool)
  | subjectAlternativeName (names : List String) (critical : Bool)
  deriving DecidableEq

/-- The signed certificate signing request returned by `builder.sign`. -/
structure CsrRequest where
  subject : List NameAttribute
  extensions : List Extension
  signatureHash : String
  deriving DecidableEq

/-- The `csr_config` dictionary consumed by `create_csr`: the six subject keys the
source reads (`commonName`, `organization`, `organizationalUnit`, `country`,
`state`, `location`), each `none` when the key is missing, plus the
`extensions` mapping (only the `subAltNames` key is ever interpreted). -/
structure CsrConfig where
  commonName : Option String
  organization : Option String
  organizationalUnit : Option String
  country : Option String
  state : Option String
  location : Option String
  extensions : List (String × List SubAltName)
  deriving DecidableEq

/-- Failure of `create_csr`: a Python `KeyError` on a missing dictionary key. -/
inductive CsrError where
  | keyError (key : String)
  deriving DecidableEq

/-- Observable effects of `create_csr`, in execution order. -/
inductive CsrStep where
  | generateKey
  | readAttr (key : String)
  | sign
  deriving DecidableEq

/-- `rsa.generate_private_key(public_exponent=65537, key_size=2048, ...)`. -/
def generate_private_key : PrivateKey :=
  { publicExponent := 65537, keySize := 2048 }

/-- A dictionary access `csr_config[key]`: raises `KeyError` when missing. -/
def lookupAttr (key : String) (value : Option String) : Except CsrError String :=
  match value with
  | some v => Except.ok v
  | none => Except.error (CsrError.keyError key)

/-- The subject-name construction `x509.Name([...])` of `create_csr`: the six
attribute reads, evaluated in the source order. -/
def buildSubject (cfg : CsrConfig) : Except CsrError (List NameAttribute) := do
  let commonName ← lookupAttr "commonName" cfg.commonName
  let organization ← lookupAttr "organization" cfg.organization
  let organizationalUnit ← lookupAttr "organizationalUnit" cfg.organizationalUnit
  let country ← lookupAttr "country" cfg.country
  let state ← lookupAttr "state" cfg.state
  let location ← lookupAttr "location" cfg.location
  return [ { oid := "OID_COMMON_NAME", value := commonName },
           { oid := "OID_ORGANIZATION_NAME", value := organization },
           { oid := "OID_ORGANIZATIONAL_UNIT_NAME", value := organizationalUnit },
           { oid := "OID_COUNTRY_NAME", value := country },
           { oid := "OID_STATE_OR_PROVINCE_NAME", value := state },
           { oid := "OID_LOCALITY_NAME", value := location } ]

/-- The `subAltNames` loop body: collect the `DNSName`-typed entries (any other
`nameType` is skipped by the loop) and add them as a critical
`SubjectAlternativeName` extension. -/
def sanExtension (names : List SubAltName) : Extension :=
  Extension.subjectAlternativeName
    ((names.filter (fun n => n.nameType == "DNSName")).map (fun n => n.value)) true

/-- The `for k, v in csr_config.get('extensions', {}).items()` loop: only the
key `subAltNames` adds an extension. -/
def configuredExtensions (entries : List (String × List SubAltName)) : List Extension :=
  entries.filterMap (fun kv =>
    if kv.fst == "subAltNames" then some (sanExtension kv.snd) else none)

/-- `service.create_csr`: generate the RSA key, build the subject name, add the
critical `BasicConstraints(ca=False)` extension, add any configured
`SubjectAlternativeName` extension, sign with SHA-256, and return the CSR
together with the serialized private key. -/
def create_csr (csr_config : CsrConfig) : Except CsrError (CsrRequest × PrivateKey) := do
  let private_key := generate_private_key
  let subject ← buildSubject csr_config
  let extensions :=
    Extension.basicConstraints false true :: configuredExtensions csr_config.extensions
  let request : CsrRequest :=
    { subject := subject, extensions := extensions, signatureHash := "SHA256" }
  return (request, private_key)

/-- The six subject keys paired with their configured values, in the order the
source evaluates them. -/
def subjectFields (cfg : CsrConfig) : List (String × Option String) :=
  [("commonName", cfg.commonName), ("organization", cfg.organization),
   ("organizationalUnit", cfg.organizationalUnit), ("country", cfg.country),
   ("state", cfg.state), ("location", cfg.location)]

/-- The attribute reads attempted, in order, stopping at the first missing key
(whose access raises). -/
def subjectReadTrace : List (String × Option String) → List CsrStep
  | [] => []
  | (key, value) :: rest =>
    CsrStep.readAttr key ::
      (match value with
       | some _ => subjectReadTrace rest
       | none => [])

/-- The ordered effect trace of a `create_csr` call: key generation happens
first, then the subject attribute reads, and signing only when all reads
succeeded. -/
def create_csr_trace (cfg : CsrConfig) : List CsrStep :=
  CsrStep.generateKey ::
    (subjectReadTrace (subjectFields cfg) ++
      (match buildSubject cfg with
       | Except.ok _ => [CsrStep.sign]
       | Except.error _ => []))

end Lemur

namespace Lemur

/-! ### Theorems about the CSR builder (claims C2, C3, C8) -/

/-- Claim C2 counterexample: on a config missing `commonName` (all other
required keys present), `create_csr` fails with a `KeyError` on the missing
dictionary key — not with a ConfigurationError, which `create_csr` never
raises — and the first effect of the failing call is the RSA key generation,
so key material is generated before the failure, contradicting the claim that
the call fails before any key material is generated. -/
theorem create_csr_missing_attr_cx :
    create_csr { commonName := none, organization := some "Netflix",
                 organizationalUnit := some "Operations", country := some "US",
                 state := some "California", location := some "Los Gatos",
                 extensions := [] }
      = Except.error (CsrError.keyError "commonName") ∧
    (create_csr_trace { commonName := none, organization := some "Netflix",
                        organizationalUnit := some "Operations", country := some "US",
                        state := some "California", location := some "Los Gatos",
                        extensions := [] }).head? = some CsrStep.generateKey :=
  ⟨rfl, rfl⟩

/-- Claim C2 (amended): for every config missing any one of the six required
subject keys (`commonName`, `organization`, `organizationalUnit`, `country`,
`state`, `location`), `create_csr` fails with a `KeyError` on a missing key, so
no key material is returned to the caller; but the RSA key generation is the
first effect of the call, so key material is generated before the failure. -/
theorem create_csr_missing_attr (cfg : CsrConfig)
    (h : cfg.commonName = none ∨ cfg.organization = none ∨
         cfg.organizationalUnit = none ∨ cfg.country = none ∨
         cfg.state = none ∨ cfg.location = none) :
    (∃ key, create_csr cfg = Except.error (CsrError.keyError key)) ∧
    (create_csr_trace cfg).head? = some CsrStep.generateKey := by
  refine ⟨?_, rfl⟩
  rcases cfg with ⟨cn, org, ou, c, st, l, exts⟩
  rcases cn with _ | cn
  · exact ⟨"commonName", rfl⟩
  rcases org with _ | org
  · exact ⟨"organization", rfl⟩
  rcases ou with _ | ou
  · exact ⟨"organizationalUnit", rfl⟩
  rcases c with _ | c
  · exact ⟨"country", rfl⟩
  rcases st with _ | st
  · exact ⟨"state", rfl⟩
  rcases l with _ | l
  · exact ⟨"location", rfl⟩
  simp at h

/-- Witness for `create_csr_missing_attr` at a concrete config whose
`organization` key is missing. -/
theorem create_csr_missing_attr_witness :
    (∃ key, create_csr { commonName := some "example.com", organization := none,
                         organizationalUnit := some "Operations", country := some "US",
                         state := some "California", location := some "Los Gatos",
                         extensions := [] }
              = Except.error (CsrError.keyError key)) ∧
    (create_csr_trace { commonName := some "example.com", organization := none,
                        organizationalUnit := some "Operations", country := some "US",
                        state := some "California", location := some "Los Gatos",
                        extensions := [] }).head? = some CsrStep.generateKey :=
  create_csr_missing_attr _ (Or.inr (Or.inl rfl))

/-- Claim C3: on every config supplying all six required subject attributes,
`create_csr` succeeds and returns a CSR whose subject distinguished name is
exactly the six attributes in the fixed source order (commonName,
organization, organizationalUnit, country, state, locality) and a private key
of exactly 2048 bits with public exponent 65537. -/
theorem create_csr_valid (cn org ou c st l : String)
    (exts : List (String × List SubAltName)) :
    create_csr { commonName := some cn, organization := some org,
                 organizationalUnit := some ou, country := some c,
                 state := some st, location := some l, extensions := exts }
      = Except.ok
          ( { subject := [ { oid := "OID_COMMON_NAME", value := cn },
                           { oid := "OID_ORGANIZATION_NAME", value := org },
                           { oid := "OID_ORGANIZATIONAL_UNIT_NAME", value := ou },
                           { oid := "OID_COUNTRY_NAME", value := c },
                           { oid := "OID_STATE_OR_PROVINCE_NAME", value := st },
                           { oid := "OID_LOCALITY_NAME", value := l } ],
              extensions :=
                Extension.basicConstraints false true :: configuredExtensions exts,
              signatureHash := "SHA256" },
            { publicExponent := 65537, keySize := 2048 } ) := rfl

/-- Claim C8: for every extension request containing subject-alternative names,
`create_csr` succeeds and the resulting CSR carries, besides the critical
`BasicConstraints` extension, exactly one critical `SubjectAlternativeName`
extension containing exactly the `DNSName`-typed entries in order; every entry
of any other name type is silently dropped (no error is raised and the entry
does not appear in the extension). -/
theorem create_csr_san_dns_only (cn org ou c st l : String)
    (names : List SubAltName) :
    create_csr { commonName := some cn, organization := some org,
                 organizationalUnit := some ou, country := some c,
                 state := some st, location := some l,
                 extensions := [("subAltNames", names)] }
      = Except.ok
          ( { subject := [ { oid := "OID_COMMON_NAME", value := cn },
                           { oid := "OID_ORGANIZATION_NAME", value := org },
                           { oid := "OID_ORGANIZATIONAL_UNIT_NAME", value := ou },
                           { oid := "OID_COUNTRY_NAME", value := c },
                           { oid := "OID_STATE_OR_PROVINCE_NAME", value := st },
                           { oid := "OID_LOCALITY_NAME", value := l } ],
              extensions :=
                [ Extension.basicConstraints false true,
                  Extension.subjectAlternativeName
                    ((names.filter (fun n => n.nameType == "DNSName")).map
                      (fun n => n.value)) true ],
              signatureHash := "SHA256" },
            { publicExponent := 65537, keySize := 2048 } ) := rfl

end Lemur

namespace Lemur

/-! ### Query engine (service.render)

`render` builds a SQLAlchemy query by successively applying filters and hands
it to `database.sort_and_page`.  The embedding returns the ordered list of
filters applied to the query before paging (so a result list without a given
filter constructor means that filter was never applied on that run), or the
`IndexError` raised by an out-of-range `terms[1]` access. -/

/-- One filter applied to the certificate query, in source vocabulary. -/
inductive QFilter where
  /-- `or_(Certificate.issuer.ilike(value), Certificate.authority_id.in_(sub_query))`
  where `sub_query` selects authorities whose name matches `value`
  case-insensitively. -/
  | issuerOr (value : String)
  /-- `Certificate.destinations.any(Destination.id == value)` from the free-text
  `destination` branch (the raw second term is compared against the id). -/
  | destinationsAny (value : String)
  /-- `Certificate.active == value` against the literal second term. -/
  | activeEq (value : String)
  /-- `database.filter(query, Certificate, terms)`: the generic whitelisted
  per-field filter. -/
  | genericFilter (terms : List String)
  /-- `or_(Certificate.user_id == g.user.id, Certificate.owner.in_(roles))`:
  the visibility filter applied when `show` is set. -/
  | showOwnership (userId : Nat)
  /-- `Certificate.destinations.any(Destination.id == destination_id)`. -/
  | destinationIdAny (destId : Nat)
  /-- `Certificate.notifications.any(Notification.id == notification_id)`. -/
  | notificationIdAny (notifId : Nat)
  /-- `not_after` restricted to the window from now to now plus `weeks` weeks. -/
  | expiryWindow (weeks : Nat)
  deriving DecidableEq

/-- The unhandled error a `render` call can raise: the `terms[1]` list access
out of range. -/
inductive RenderError where
  | indexOutOfRange
  deriving DecidableEq

/-- The request arguments `render` pops: `0` stands for an absent/None numeric
argument (both are falsy in the source's truthiness tests) and the empty
string for an absent filter. -/
structure RenderArgs where
  time_range : Nat
  destination_id : Nat
  notification_id : Nat
  show' : Bool
  filter : String
  deriving DecidableEq

/-- Python's substring containment `pat in s` on strings. -/
def strContains (s pat : String) : Bool :=
  (List.range (s.toList.length + 1)).any
    (fun i => pat.toList.isPrefixOf (s.toList.drop i))

/-- Split a character list on a separator character; the Python semantics of
`str.split(sep)`: the empty string yields `[""]`. -/
def splitOnChar (sep : Char) : List Char → List (List Char)
  | [] => [[]]
  | c :: rest =>
    let r := splitOnChar sep rest
    if c = sep then [] :: r
    else
      match r with
      | [] => [[c]]
      | h :: t => (c :: h) :: t

/-- Python's `s.split(sep)` for a one-character separator. -/
def pySplit (s : String) (sep : Char) : List String :=
  (splitOnChar sep s.toList).map (fun cs => String.mk cs)

/-- The filters `render` applies after the free-text block: visibility (`show`),
destination id, notification id, and the expiry time window, in source order. -/
def tailFilters (userId : Nat) (args : RenderArgs) : List QFilter :=
  (if args.show' then [QFilter.showOwnership userId] else []) ++
  (if args.destination_id ≠ 0 then [QFilter.destinationIdAny args.destination_id] else []) ++
  (if args.notification_id ≠ 0 then [QFilter.notificationIdAny args.notification_id] else []) ++
  (if args.time_range ≠ 0 then [QFilter.expiryWindow args.time_range] else [])

/-- `service.render`: the free-text filter is split on semicolons; `'issuer' in
terms` triggers the issuer sub-query on `terms[1]` and returns immediately
after paging; otherwise `'destination' in terms` filters association
membership on `terms[1]`, `elif 'active' in filt` (substring of the whole
filter string) compares `Certificate.active` to `terms[1]`, and any other
filter goes to the generic per-field filter; the remaining filters are then
applied and the query paged. -/
def render (userId : Nat) (args : RenderArgs) : Except RenderError (List QFilter) :=
  if args.filter = "" then
    Except.ok (tailFilters userId args)
  else
    let terms := pySplit args.filter ';'
    if terms.contains "issuer" then
      match terms.get? 1 with
      | none => Except.error RenderError.indexOutOfRange
      | some value => Except.ok [QFilter.issuerOr value]
    else if terms.contains "destination" then
      match terms.get? 1 with
      | none => Except.error RenderError.indexOutOfRange
      | some value => Except.ok (QFilter.destinationsAny value :: tailFilters userId args)
    else if strContains args.filter "active" then
      match terms.get? 1 with
      | none => Except.error RenderError.indexOutOfRange
      | some value => Except.ok (QFilter.activeEq value :: tailFilters userId args)
    else
      Except.ok (QFilter.genericFilter terms :: tailFilters userId args)

end Lemur

namespace Lemur

/-! ### Theorems about render (claims C4, C5, C10) -/

/-- Claim C10: for every render argument set whose free-text filter is the
single term `issuer` or the single term `destination`, `render` fails with an
index-out-of-range error while reading `terms[1]`, independently of all other
arguments. -/
theorem render_single_term_crashes (userId : Nat) (args : RenderArgs)
    (h : args.filter = "issuer" ∨ args.filter = "destination") :
    render userId args = Except.error RenderError.indexOutOfRange := by
  rcases args with ⟨tr, dest, notif, sh, filt⟩
  dsimp only at h
  rcases h with h | h <;> subst h <;> rfl

/-- Witness for `render_single_term_crashes` at concrete arguments with filter
`destination`. -/
theorem render_single_term_crashes_witness :
    render 7 { time_range := 2, destination_id := 5, notification_id := 3,
               show' := true, filter := "destination" }
      = Except.error RenderError.indexOutOfRange :=
  render_single_term_crashes 7 _ (Or.inr rfl)

/-- Claim C4 counterexample: for the render arguments whose free-text filter is
exactly `issuer` (which contains the term `issuer`), `render` does not return a
paged issuer sub-query result at all: it fails with the index-out-of-range
error, so no run over these arguments "returns immediately after paging". -/
theorem render_issuer_contains_cx :
    render 7 { time_range := 0, destination_id := 0, notification_id := 0,
               show' := true, filter := "issuer" }
      = Except.error RenderError.indexOutOfRange ∧
    (render 7 { time_range := 0, destination_id := 0, notification_id := 0,
                show' := true, filter := "issuer" }).isOk = false :=
  ⟨rfl, rfl⟩

/-- Claim C4 (amended): for every render query whose semicolon-delimited term
list contains the term `issuer` and has a second term `terms[1]`, the result is
computed only from the issuer sub-query on that second term followed by
sort-and-page: the visibility (`show`), destination id, notification id and
expiry window filters are never applied, whatever the other arguments are.
With no second term, `render` instead fails with an index error
(`render_single_term_crashes`). -/
theorem render_issuer_short_circuit (userId : Nat) (args : RenderArgs) (value : String)
    (h1 : (pySplit args.filter ';').contains "issuer" = true)
    (h2 : (pySplit args.filter ';').get? 1 = some value) :
    render userId args = Except.ok [QFilter.issuerOr value] := by
  have hne : ¬ args.filter = "" := by
    intro h0
    rw [h0] at h1
    exact absurd h1 (by decide)
  simp only [render, if_neg hne, h1, if_true, h2]

/-- Witness for `render_issuer_short_circuit`: with filter `issuer;corp` and
every other filter axis requested, only the issuer sub-query is applied. -/
theorem render_issuer_short_circuit_witness :
    render 7 { time_range := 2, destination_id := 5, notification_id := 3,
               show' := true, filter := "issuer;corp" }
      = Except.ok [QFilter.issuerOr "corp"] :=
  render_issuer_short_circuit 7 _ "corp" (by decide) (by decide)

/-- Claim C5 counterexample: the filter `owner;destination` has the
unrecognized leading term `owner`, so by the claim it should fall through to
the generic whitelisted per-field filter; instead the code selects the
destination special handling (membership of `destination` anywhere in the term
list) with comparison value `terms[1]`. -/
theorem render_dispatch_cx :
    render 7 { time_range := 0, destination_id := 0, notification_id := 0,
               show' := false, filter := "owner;destination" }
      = Except.ok [QFilter.destinationsAny "destination"] ∧
    ∀ terms rest,
      render 7 { time_range := 0, destination_id := 0, notification_id := 0,
                 show' := false, filter := "owner;destination" }
        ≠ Except.ok (QFilter.genericFilter terms :: rest) := by
  refine ⟨rfl, ?_⟩
  intro terms rest h
  have h2 : (Except.ok [QFilter.destinationsAny "destination"]
      : Except RenderError (List QFilter))
      = Except.ok (QFilter.genericFilter terms :: rest) := h
  simp at h2

/-- Claim C5 (amended): special handling in `render` is selected by containment,
not by the leading term: `issuer` anywhere in the semicolon-delimited term list
selects the issuer sub-query; failing that, `destination` anywhere in the term
list selects the destination membership filter; failing that, the substring
`active` anywhere in the whole filter string selects the literal active
comparison; in each case the comparison value is the second term `terms[1]`
(not necessarily the term adjacent to the recognized one); only a filter
triggering none of the three falls through to the generic whitelisted
per-field filter. -/
theorem render_dispatch_by_containment (userId : Nat) (args : RenderArgs) (value : String) :
    ((pySplit args.filter ';').contains "issuer" = true →
      (pySplit args.filter ';').get? 1 = some value →
      render userId args = Except.ok [QFilter.issuerOr value]) ∧
    ((pySplit args.filter ';').contains "issuer" = false →
      (pySplit args.filter ';').contains "destination" = true →
      (pySplit args.filter ';').get? 1 = some value →
      render userId args
        = Except.ok (QFilter.destinationsAny value :: tailFilters userId args)) ∧
    ((pySplit args.filter ';').contains "issuer" = false →
      (pySplit args.filter ';').contains "destination" = false →
      strContains args.filter "active" = true →
      (pySplit args.filter ';').get? 1 = some value →
      render userId args
        = Except.ok (QFilter.activeEq value :: tailFilters userId args)) ∧
    (¬ args.filter = "" →
      (pySplit args.filter ';').contains "issuer" = false →
      (pySplit args.filter ';').contains "destination" = false →
      strContains args.filter "active" = false →
      render userId args
        = Except.ok (QFilter.genericFilter (pySplit args.filter ';')
            :: tailFilters userId args)) := by
  have hne_dest : (pySplit args.filter ';').contains "destination" = true →
      ¬ args.filter = "" := by
    intro h1 h0
    rw [h0] at h1
    exact absurd h1 (by decide)
  have hne_active : strContains args.filter "active" = true → ¬ args.filter = "" := by
    intro h1 h0
    rw [h0] at h1
    exact absurd h1 (by decide)
  refine ⟨?_, ?_, ?_, ?_⟩
  · intro h1 h2
    exact render_issuer_short_circuit userId args value h1 h2
  · intro h1 h2 h3
    simp only [render, if_neg (hne_dest h2), h1, h2, h3, Bool.false_eq_true, if_false, if_true]
  · intro h1 h2 h3 h4
    simp only [render, if_neg (hne_active h3), h1, h2, h3, h4, Bool.false_eq_true,
      if_false, if_true]
  · intro h0 h1 h2 h3
    simp only [render, if_neg h0, h1, h2, h3, Bool.false_eq_true, if_false]

/-- Witness for `render_dispatch_by_containment`: filter `name;destination`
selects the destination special handling with value `destination`, although
its leading term `name` is not a recognized special term. -/
theorem render_dispatch_by_containment_witness :
    render 7 { time_range := 0, destination_id := 0, notification_id := 0,
               show' := false, filter := "name;destination" }
      = Except.ok (QFilter.destinationsAny "destination"
          :: tailFilters 7 { time_range := 0, destination_id := 0, notification_id := 0,
                             show' := false, filter := "name;destination" }) :=
  (render_dispatch_by_containment 7 _ "destination").2.1 (by decide) (by decide) (by decide)

end Lemur

namespace Lemur

/-! ### Exception taxonomy (lemur/exceptions.py)

`LemurException.__init__` calls `current_app.logger.exception(self)`, so an
error is logged at construction exactly when the initializer that runs on
construction reaches `LemurException.__init__`.  The embedding records, for
each class of the taxonomy, its base class and its own `__init__` behaviour as
written in the source, and derives from Python initializer dispatch whether a
construction logs. -/

/-- The exception classes defined in lemur/exceptions.py. -/
inductive ExcClass where
  | lemurException
  | duplicateError
  | invalidListener
  | invalidDistribution
  | tokenExchangeFailed
  | attrNotFound
  | invalidConfiguration
  | invalidAuthority
  | unknownProvider
  | issuerPaymentRequired
  deriving DecidableEq

/-- Whether the class's direct base class is `LemurException` (the remaining
classes derive directly from plain `Exception`, whose initializer does not
log). -/
def derivesLemurException : ExcClass → Bool
  | ExcClass.lemurException => false
  | ExcClass.duplicateError => true
  | ExcClass.invalidListener => true
  | ExcClass.invalidDistribution => true
  | ExcClass.tokenExchangeFailed => true
  | ExcClass.attrNotFound => true
  | ExcClass.invalidConfiguration => false
  | ExcClass.invalidAuthority => false
  | ExcClass.unknownProvider => false
  | ExcClass.issuerPaymentRequired => true

/-- Whether the class defines its own `__init__` (overriding the inherited
one). -/
def definesOwnInit : ExcClass → Bool
  | ExcClass.lemurException => true
  | ExcClass.duplicateError => true
  | ExcClass.invalidListener => false
  | ExcClass.invalidDistribution => true
  | ExcClass.tokenExchangeFailed => true
  | ExcClass.attrNotFound => true
  | ExcClass.invalidConfiguration => false
  | ExcClass.invalidAuthority => false
  | ExcClass.unknownProvider => false
  | ExcClass.issuerPaymentRequired => true

/-- Whether the class's own `__init__` invokes `super().__init__()` (only
`IssuerPaymentRequired` does). -/
def ownInitCallsSuperInit : ExcClass → Bool
  | ExcClass.issuerPaymentRequired => true
  | _ => false

/-- Whether constructing an instance of the class runs
`current_app.logger.exception`: the most-derived `__init__` runs; it logs iff
it is (or reaches, via `super().__init__()`) `LemurException.__init__`. -/
def loggedOnConstruction (c : ExcClass) : Bool :=
  match c with
  | ExcClass.lemurException => true
  | _ =>
    if definesOwnInit c then ownInitCallsSuperInit c && derivesLemurException c
    else derivesLemurException c

end Lemur

namespace Lemur

/-! ### Theorems about the exception taxonomy (claim C7) -/

/-- Claim C7 counterexample: none of the five classes the claim instances as
logged-at-construction — `DuplicateError`, `AttrNotFound`,
`InvalidDistribution`, `UnknownProvider`, `InvalidConfiguration` — actually
logs on construction: the first three override `__init__` without invoking the
base initializer, and the last two do not derive from `LemurException` at
all. -/
theorem not_every_error_logged_cx :
    loggedOnConstruction ExcClass.duplicateError = false ∧
    loggedOnConstruction ExcClass.attrNotFound = false ∧
    loggedOnConstruction ExcClass.invalidDistribution = false ∧
    loggedOnConstruction ExcClass.unknownProvider = false ∧
    loggedOnConstruction ExcClass.invalidConfiguration = false := by
  decide

/-- Claim C7 (amended): an error of the taxonomy is logged at the point of its
construction exactly when its construction runs `LemurException.__init__`,
which happens only for `LemurException` itself, `InvalidListener` (which
inherits the base initializer) and `IssuerPaymentRequired` (whose initializer
calls `super().__init__()`); every other class of the taxonomy is not logged
at construction. -/
theorem loggedOnConstruction_iff (c : ExcClass) :
    loggedOnConstruction c = true ↔
      (c = ExcClass.lemurException ∨ c = ExcClass.invalidListener ∨
       c = ExcClass.issuerPaymentRequired) := by
  cases c <;> decide

end Lemur

namespace Lemur

/-! ### Certificate store and update (service.update)

The persistence collaborator (`lemur/database.py`) is not part of src/; per
section 6 of the spec it provides transactional CRUD primitives and
set-reconciliating `update_list`.  The store is embedded as an association
list from certificate id to record, and `database.update` / `database.create`
as persisting the current in-memory record under its id. -/

/-- A certificate record (the Certificate model fields this core touches). -/
structure Cert where
  body : String
  private_key : Option PrivateKey
  chain : Option String
  owner : Option String
  description : Option String
  active : Bool
  user_id : Option Nat
  authority_id : Option Nat
  destinations : List Nat
  notifications : List Nat
  deriving DecidableEq

/-- The `Certificate(cert_body, private_key, cert_chain)` constructor: content
fields set, metadata and associations empty. -/
def Certificate_new (body : String) (private_key : Option PrivateKey)
    (chain : Option String) : Cert :=
  { body := body, private_key := private_key, chain := chain, owner := none,
    description := none, active := false, user_id := none, authority_id := none,
    destinations := [], notifications := [] }

/-- The certificate table: id to record. -/
abbrev DB := List (Nat × Cert)

/-- Retrieve a certificate by id (`database.get`). -/
def dbGet (db : DB) (cert_id : Nat) : Option Cert :=
  (db.find? (fun e => e.fst == cert_id)).map (fun e => e.snd)

/-- Persist the record under its id (`database.update` / `database.create`:
upsert with transactional durability). -/
def dbPut (db : DB) (cert_id : Nat) (cert : Cert) : DB :=
  (cert_id, cert) :: db.eraseP (fun e => e.fst == cert_id)

theorem dbGet_dbPut (db : DB) (cert_id : Nat) (cert : Cert) :
    dbGet (dbPut db cert_id cert) cert_id = some cert := by
  simp [dbGet, dbPut, List.find?]

/-- Modelled from the spec: `database.update_list` is a persistence-collaborator
primitive whose code is not under src/; section 6 states it "performs
set-reconciliation, not append" and section 4.4 describes the semantics as
"compute symmetric difference between current and requested association lists,
add missing, remove extras".  Extras (current members not requested) are
removed, missing requested members are added. -/
def update_list (current requested : List Nat) : List Nat :=
  current.filter (fun x => decide (x ∈ requested)) ++
    requested.filter (fun x => !(decide (x ∈ current)))

theorem mem_update_list (current requested : List Nat) (x : Nat) :
    x ∈ update_list current requested ↔ x ∈ requested := by
  simp only [update_list, List.mem_append, List.mem_filter, decide_eq_true_eq,
    Bool.not_eq_true', decide_eq_false_iff_not]
  tauto

theorem update_list_of_subset (l r : List Nat) (h : ∀ x, x ∈ l ↔ x ∈ r) :
    update_list l r = l := by
  unfold update_list
  have h1 : l.filter (fun x => decide (x ∈ r)) = l := by
    rw [List.filter_eq_self]
    intro a ha
    simp [(h a).mp ha]
  have h2 : r.filter (fun x => !(decide (x ∈ l))) = [] := by
    rw [List.filter_eq_nil_iff]
    intro a ha
    simp [(h a).mpr ha]
  rw [h1, h2, List.append_nil]

theorem update_list_idem (current requested : List Nat) :
    update_list (update_list current requested) requested
      = update_list current requested :=
  update_list_of_subset _ _ (mem_update_list current requested)

/-- `service.update`: fetch the certificate, overwrite owner, active and
description unconditionally, reconcile the notification and destination
association lists, and persist; returns `none` when no certificate has the
id. -/
def update (db : DB) (cert_id : Nat) (owner description : String) (active : Bool)
    (destinations notifications : List Nat) : Option (DB × Cert) :=
  match dbGet db cert_id with
  | none => none
  | some cert0 =>
    let cert1 := { cert0 with owner := some owner, active := active,
                              description := some description }
    let cert2 := { cert1 with
      notifications := update_list cert1.notifications notifications }
    let cert3 := { cert2 with
      destinations := update_list cert2.destinations destinations }
    some (dbPut db cert_id cert3, cert3)

end Lemur

namespace Lemur

/-! ### Theorems about update (claim C9) -/

/-- Claim C9: whenever `update` succeeds with destination list `destinations`
and notification list `notifications`, the persisted certificate reads back
with destination associations exactly the set of `destinations` and
notification associations exactly the set of `notifications` (order
insensitive), regardless of the prior association lists — so `update` is not
append-only — and calling `update` again with identical arguments returns the
same certificate and leaves the observable store state unchanged. -/
theorem update_roundtrip (db : DB) (cert_id : Nat) (owner description : String)
    (active : Bool) (destinations notifications : List Nat) (db1 : DB) (c1 : Cert)
    (h : update db cert_id owner description active destinations notifications
          = some (db1, c1)) :
    dbGet db1 cert_id = some c1 ∧
    (∀ x, x ∈ c1.destinations ↔ x ∈ destinations) ∧
    (∀ x, x ∈ c1.notifications ↔ x ∈ notifications) ∧
    update db1 cert_id owner description active destinations notifications
      = some (dbPut db1 cert_id c1, c1) ∧
    dbGet (dbPut db1 cert_id c1) cert_id = some c1 := by
  unfold update at h
  split at h
  · exact absurd h (by simp)
  · rename_i cert0 heq
    simp only [Option.some.injEq, Prod.mk.injEq] at h
    obtain ⟨hdb, hc⟩ := h
    subst hdb
    subst hc
    refine ⟨dbGet_dbPut _ _ _, ?_, ?_, ?_, dbGet_dbPut _ _ _⟩
    · intro x
      exact mem_update_list _ _ x
    · intro x
      exact mem_update_list _ _ x
    · unfold update
      rw [dbGet_dbPut]
      simp only [Option.some.injEq, Prod.mk.injEq]
      rw [update_list_idem, update_list_idem]
      exact ⟨rfl, rfl⟩

end Lemur

namespace Lemur

/-- A concrete stored certificate for exercising `update`. -/
def certC9 : Cert :=
  { body := "BODY", private_key := none, chain := none, owner := none,
    description := none, active := false, user_id := none, authority_id := none,
    destinations := [9], notifications := [] }

/-- The record `update` produces from `certC9` with destination list `[2, 3]`
and notification list `[4]`. -/
def certC9up : Cert :=
  { body := "BODY", private_key := none, chain := none, owner := some "owner2",
    description := some "desc", active := true, user_id := none,
    authority_id := none, destinations := [2, 3], notifications := [4] }

/-- Witness for `update_roundtrip` on a one-certificate store whose prior
destination list `[9]` is replaced by `[2, 3]`. -/
theorem update_roundtrip_witness : dbGet [(1, certC9up)] 1 = some certC9up :=
  (update_roundtrip [(1, certC9)] 1 "owner2" "desc" true [2, 3] [4]
    [(1, certC9up)] certC9up (by decide)).1

end Lemur

namespace Lemur

/-! ### Minting orchestration (service.mint and service.create)

`mint` resolves the authority plugin, builds the CSR and key, calls the
plugin's signing capability with the requesting user injected as creator,
assembles the certificate record with body, key and chain, attaches user and
authority, and persists it via `database.update` before returning.  `create`
layers on top: it sets the owner, wires destinations, persists, sets the
description and attaches the user, wires notifications, and persists again.
The wiring steps call collaborators that can fail; a `WiringFaults` parameter
injects such failures, and the run returns the store as committed up to the
failure together with the ordered trace of store effects. -/

/-- The requesting identity `g.user`. -/
structure User where
  id : Nat
  email : String

/-- An Authority row: id and the plugin name it selects. -/
structure Authority where
  id : Nat
  plugin_name : String

/-- Errors of a minting run. -/
inductive MintError where
  | unknownProvider
  | csrFailure (e : CsrError)
  | issuerError
  | wiringFailure
  deriving DecidableEq

/-- An issuer plugin: `create_certificate(csr, issuer_options)` returning the
signed body and chain; the second argument is the creator identity injected
into `issuer_options` before the call. -/
structure IssuerPlugin where
  create_certificate : CsrRequest → String → Except MintError (String × String)

/-- Ambient environment of a mint: the process-wide plugin registry
(`plugins.get`) and the authenticated user `g.user`. -/
structure MintEnv where
  plugins : String → Option IssuerPlugin
  user : User

/-- The issuer options consumed by `mint`: the chosen authority and the CSR
configuration. -/
structure IssuerOptions where
  authority : Authority
  csrConfig : CsrConfig

/-- Store-level effects of a minting run, in execution order. -/
inductive Effect where
  | persist
  | wireDestinations
  | wireNotifications
  deriving DecidableEq

/-- Id assigned to a newly inserted certificate row. -/
def dbFreshId (db : DB) : Nat := db.length

/-- `service.mint`: resolve the plugin by the authority's plugin name, build
CSR and key, sign through the plugin (with `g.user.email` injected as
creator), assemble the record with body, key, chain, user and authority, and
persist it. -/
def mint (env : MintEnv) (issuer_options : IssuerOptions) (db : DB) :
    DB × List Effect × Except MintError (Nat × Cert × PrivateKey × String) :=
  let authority := issuer_options.authority
  match env.plugins authority.plugin_name with
  | none => (db, [], Except.error MintError.unknownProvider)
  | some issuer =>
    match create_csr issuer_options.csrConfig with
    | Except.error e => (db, [], Except.error (MintError.csrFailure e))
    | Except.ok (csr, private_key) =>
      match issuer.create_certificate csr env.user.email with
      | Except.error e => (db, [], Except.error e)
      | Except.ok (cert_body, cert_chain) =>
        let cert := Certificate_new cert_body (some private_key) (some cert_chain)
        let cert := { cert with user_id := some env.user.id,
                                authority_id := some authority.id }
        let cert_id := dbFreshId db
        (dbPut db cert_id cert, [Effect.persist],
          Except.ok (cert_id, cert, private_key, cert_chain))

/-- The arguments of `service.create`. -/
structure CreateArgs where
  authority : Authority
  csrConfig : CsrConfig
  owner : String
  description : String
  destinations : List Nat
  notifications : List Nat

/-- Failure injection for the two collaborator wiring steps of `create`. -/
structure WiringFaults where
  destinationsFail : Bool
  notificationsFail : Bool

/-- `service.create`: mint (which persists the signed record), set the owner,
wire destinations (`database.update_list`), persist (`database.create`), set
the description and attach the requesting user, then wire notifications and
persist again — the comment in the source states the notification wiring is
deliberately last so its failure cannot lose the certificate.  A failing
wiring step aborts the run, keeping every store write committed before it. -/
def create (env : MintEnv) (faults : WiringFaults) (args : CreateArgs) (db : DB) :
    DB × List Effect × Except MintError (Nat × Cert) :=
  match mint env { authority := args.authority, csrConfig := args.csrConfig } db with
  | (db1, tr, Except.error e) => (db1, tr, Except.error e)
  | (db1, tr, Except.ok (cert_id, cert, _private_key, _cert_chain)) =>
    let cert := { cert with owner := some args.owner }
    if faults.destinationsFail then
      (db1, tr ++ [Effect.wireDestinations], Except.error MintError.wiringFailure)
    else
      let cert := { cert with
        destinations := update_list cert.destinations args.destinations }
      let db2 := dbPut db1 cert_id cert
      let cert := { cert with description := some args.description }
      if faults.notificationsFail then
        (db2, tr ++ [Effect.wireDestinations, Effect.persist, Effect.wireNotifications],
          Except.error MintError.wiringFailure)
      else
        let cert := { cert with
          notifications := update_list cert.notifications args.notifications }
        let db3 := dbPut db2 cert_id cert
        (db3,
          tr ++ [Effect.wireDestinations, Effect.persist, Effect.wireNotifications,
                 Effect.persist],
          Except.ok (cert_id, cert))

end Lemur

namespace Lemur

/-! ### Theorems about minting (claim C1) -/

/-- Claim C1: on every run of `create` whose signing step succeeds (the plugin
resolves, the CSR builds, and the plugin signs), the first store effect is the
persistence of the certificate record — before any destination or notification
wiring is attempted — and if either wiring step fails, the certificate is
still retrievable from the store afterwards with its minted body, chain,
authority and creator, its notification associations empty, and its
destination associations empty (destination wiring failed before any write) or
exactly the requested set (destination wiring succeeded, notification wiring
failed). -/
theorem create_durability (env : MintEnv) (faults : WiringFaults) (args : CreateArgs)
    (db : DB) (issuer : IssuerPlugin) (csr : CsrRequest) (private_key : PrivateKey)
    (cert_body cert_chain : String)
    (hplug : env.plugins args.authority.plugin_name = some issuer)
    (hcsr : create_csr args.csrConfig = Except.ok (csr, private_key))
    (hsign : issuer.create_certificate csr env.user.email
              = Except.ok (cert_body, cert_chain))
    (hfail : faults.destinationsFail = true ∨ faults.notificationsFail = true) :
    ((create env faults args db).2.1).head? = some Effect.persist ∧
    (create env faults args db).2.2 = Except.error MintError.wiringFailure ∧
    ∃ c, dbGet (create env faults args db).1 (dbFreshId db) = some c ∧
      c.body = cert_body ∧ c.chain = some cert_chain ∧
      c.authority_id = some args.authority.id ∧ c.user_id = some env.user.id ∧
      c.notifications = [] ∧
      (faults.destinationsFail = true → c.destinations = []) ∧
      (faults.destinationsFail = false →
        ∀ x, x ∈ c.destinations ↔ x ∈ args.destinations) := by
  rcases faults with ⟨df, nf⟩
  simp only [create, mint, hplug, hcsr, hsign]
  cases df
  · cases nf
    · exact absurd hfail (by simp)
    · refine ⟨rfl, rfl, ?_⟩
      refine ⟨_, dbGet_dbPut _ _ _, rfl, rfl, rfl, rfl, rfl, ?_, ?_⟩
      · intro h
        exact absurd h (by simp)
      · intro _ x
        exact mem_update_list _ _ x
  · refine ⟨rfl, rfl, ?_⟩
    refine ⟨_, dbGet_dbPut _ _ _, rfl, rfl, rfl, rfl, rfl, ?_, ?_⟩
    · intro _
      rfl
    · intro h
      exact absurd h (by simp)

end Lemur

namespace Lemur

/-- A concrete issuer plugin that signs every CSR. -/
def plugC1 : IssuerPlugin :=
  { create_certificate := fun _csr _creator => Except.ok ("SIGNED-BODY", "SIGNED-CHAIN") }

/-- A concrete environment: one registered plugin and an authenticated user. -/
def envC1 : MintEnv :=
  { plugins := fun name => if name = "verisign" then some plugC1 else none,
    user := { id := 1, email := "user@example.com" } }

/-- Concrete creation arguments for the durability witness. -/
def argsC1 : CreateArgs :=
  { authority := { id := 10, plugin_name := "verisign" },
    csrConfig := { commonName := some "example.com", organization := some "Netflix",
                   organizationalUnit := some "Operations", country := some "US",
                   state := some "California", location := some "Los Gatos",
                   extensions := [] },
    owner := "team@example.com", description := "test cert",
    destinations := [2], notifications := [3] }

/-- Witness for `create_durability`: with a succeeding signing step and a
failing notification wiring step, the first store effect of the run is the
persistence of the certificate. -/
theorem create_durability_witness :
    ((create envC1 { destinationsFail := false, notificationsFail := true }
        argsC1 []).2.1).head? = some Effect.persist :=
  (create_durability envC1 { destinationsFail := false, notificationsFail := true }
    argsC1 [] plugC1 _ _ "SIGNED-BODY" "SIGNED-CHAIN" rfl rfl rfl (Or.inr rfl)).1

end Lemur

namespace Lemur

/-! ### Statistics aggregation (service.stats)

The embedding mirrors the source's query construction: a base query is
filtered by the `active` option and the `destination_id` option; then both
metric branches construct a fresh session query from the full table —
discarding the filtered query — the `not_after` branch grouping issuers inside
the 32-week window and the generic branch grouping by the metric attribute
with only the `active` filter re-applied. -/

/-- A certificate row as seen by `stats`. -/
structure SCert where
  id : Nat
  issuer : String
  elb_listeners : Bool
  destinations : List Nat
  not_after : Nat
  deriving DecidableEq

/-- The keyword options of `stats`: `active` is the string comparison
`kwargs.get('active') == 'true'`, `destination_id` is `0` when absent. -/
structure StatsOpts where
  active : Bool
  destination_id : Nat
  metric : String
  deriving DecidableEq

/-- `query(...).group_by(...)` with `func.count`: counts per key, keyed in
first-occurrence order. -/
def group_by_count (l : List String) : List (String × Nat) :=
  l.foldl (fun acc x =>
    if acc.any (fun p => p.fst == x) then
      acc.map (fun p => if p.fst == x then (p.fst, p.snd + 1) else p)
    else acc ++ [(x, 1)]) []

/-- `getattr(Certificate, metric)` for the attributes of the embedded row,
`none` when the attribute does not resolve. -/
def certAttr (metric : String) : Option (SCert → String) :=
  if metric = "issuer" then some (fun c => c.issuer)
  else if metric = "id" then some (fun c => toString c.id)
  else none

/-- `service.stats`: filter the base query by the `active` and `destination_id`
options; in the `not_after` branch, group issuer counts of a fresh full-table
query restricted to the window from now to now plus 32 weeks; otherwise group
a fresh full-table query by the metric attribute, re-applying only the
`active` filter; finally return the grouped counts.  (`now` is a day
number.) -/
def stats (db : List SCert) (now : Nat) (opts : StatsOpts) :
    Option (List (String × Nat)) :=
  let query := db
  let query := if opts.active then query.filter (fun c => c.elb_listeners) else query
  let query :=
    if opts.destination_id ≠ 0 then
      query.filter (fun c => c.destinations.contains opts.destination_id)
    else query
  if opts.metric = "not_after" then
    let start := now
    let stop := now + 32 * 7
    some (group_by_count
      (((db.filter (fun c => c.not_after ≤ stop)).filter
          (fun c => start ≤ c.not_after)).map (fun c => c.issuer)))
  else
    match certAttr opts.metric with
    | none => none
    | some attr =>
      let query2 := db
      let query2 :=
        if opts.active then query2.filter (fun c => c.elb_listeners) else query2
      some (group_by_count (query2.map attr))

end Lemur

namespace Lemur

/-! ### Theorems about stats (claim C6) -/

/-- A certificate of issuer CA-A belonging to destination 1. -/
def certCA : SCert :=
  { id := 1, issuer := "CA-A", elb_listeners := false, destinations := [1],
    not_after := 100 }

/-- A certificate of issuer CA-B belonging to destination 2 only. -/
def certCB : SCert :=
  { id := 2, issuer := "CA-B", elb_listeners := false, destinations := [2],
    not_after := 100 }

/-- Claim C6 failing input: with `destination_id = 1` over a store in which
only the CA-A certificate belongs to destination 1, both the generic
attribute-grouping branch (`metric = issuer`) and the `not_after` special case
count the CA-B certificate as well — the destination filter is applied to a
query object that both metric branches discard, so the returned counts are not
restricted to the given destination. -/
theorem stats_drops_destination_restriction :
    stats [certCA, certCB] 50
        { active := false, destination_id := 1, metric := "issuer" }
      = some [("CA-A", 1), ("CA-B", 1)] ∧
    stats [certCA, certCB] 50
        { active := false, destination_id := 1, metric := "not_after" }
      = some [("CA-A", 1), ("CA-B", 1)] := by
  constructor <;> rfl

end Lemur
